import Mathlib

/-!
Portfolio page (`src/App.jsx`): data, UI flags and per-frame arithmetic

A shallow embedding of the parts of `App.jsx` that carry behaviour:

* the literal data arrays `projectsData` and `skillsData`;
* the project filter of `ProjectsSection`;
* the three `useState` flags of `App` (`theme`, `isLoaded`, `isMenuOpen`), the
  handlers that write them and the effect that mirrors them onto the document;
* the `onUpdate` callback of `RadialSkillChart`;
* the `useFrame` callback of `VrThinkerModel`;
* the `navLinks` array, the section `id`s and the two theme toggle buttons.

Conventions.  A JavaScript string is a `String`; `null` is `none`.  The stroke
offset of `RadialSkillChart` is computed in binary64 arithmetic (`Binary64`), a
finite double being the rational number it stands for.  Elsewhere a JavaScript
number is an element of an ordered field with exact arithmetic (`ℚ` for the
literal data, `ℝ` where `Math.sin` occurs), and `Math.PI`, `Math.sin` and the
readings of `Date.now()` are arguments of the definitions that use them.
-/

namespace Portfolio

/-! ## Data arrays -/

/-- One entry of `projectsData`. -/
structure Project where
  id : Nat
  title : String
  category : String
  description : String
  tech : List String
  image : String
  link : String
  alt : String
  deriving DecidableEq, Repr

/-- The array `projectsData` (lines 44-49); entries 3 and 4 are commented out in the source. -/
def projectsData : List Project :=
  [ { id := 1, title := "Arabian Red Fox", category := "Development",
      description := "A sleek, responsive website dedicated to the Arabian Red Fox, featuring elegant design, smooth animations, and conservation information.",
      tech := ["HTML", "CSS", "JavaScript"], image := "img/proj2.webp",
      link := "https://redfo.netlify.app", alt := "A website about the Arabian Red Fox" },
    { id := 2, title := "Personal Portfolio", category := "Development",
      description := "An interactive personal portfolio built with React and Three.js, featuring a 3D hero model, scroll animations, and a dynamic theme.",
      tech := ["React", "Three.js", "Framer Motion", "Tailwind CSS"], image := "img/proj1.webp",
      link := "https://www.deepakksingh.com/", alt := "This portfolio website" } ]

/-- One `{ name, level }` record of a skill category. -/
structure Skill where
  name : String
  level : ℚ
  deriving DecidableEq

/-- One entry of `skillsData`. -/
structure SkillCategory where
  category : String
  skills : List Skill
  deriving DecidableEq

/-- The array `skillsData` (lines 24-37). -/
def skillsData : List SkillCategory :=
  [ { category := "Frontend Development",
      skills := [ { name := "React & Next.js", level := 80 }, { name := "HTML5 & CSS3", level := 90 },
                  { name := "JavaScript", level := 85 } ] },
    { category := "Creative Technology",
      skills := [ { name := "Three.js / R3F", level := 60 }, { name := "Framer Motion", level := 50 },
                  { name := "WebGL / Shaders", level := 30 } ] },
    { category := "Design & Tools",
      skills := [ { name := "UI/UX Design", level := 75 }, { name := "Blender / 3D", level := 40 },
                  { name := "Git & Workflow", level := 85 } ] } ]

/-! ## `ProjectsSection` -/

/-- The expression bound to `filteredProjects` (line 353), for a project array `data`:
`activeFilter === 'All' ? data : data.filter(project => project.category === activeFilter)`. -/
def filteredProjects (data : List Project) (activeFilter : String) : List Project :=
  if activeFilter = "All" then data
  else data.filter (fun project => decide (project.category = activeFilter))

/-! ## `App`: the three flags -/

/-- The `useState` cells of `App`. `theme` holds `null` or a string. -/
structure AppState where
  theme : Option String
  isLoaded : Bool
  isMenuOpen : Bool
  deriving DecidableEq, Repr

/-- The initial values `useState(null)`, `useState(false)`, `useState(false)` (lines 452-454). -/
def AppState.initial : AppState :=
  { theme := none, isLoaded := false, isMenuOpen := false }

/-- The value passed to `setTheme` by the load-time effect (line 458):
`currentHour >= 18 || currentHour < 6 ? 'dark' : 'light'`. -/
def themeForHour (currentHour : Nat) : String :=
  if currentHour ≥ 18 ∨ currentHour < 6 then "dark" else "light"

/-- The updater given to `setTheme` by `toggleTheme` (line 486):
`prev => (prev === 'light' ? 'dark' : 'light')`. -/
def toggleTheme (prev : Option String) : Option String :=
  if prev = some "light" then some "dark" else some "light"

/-- JavaScript truthiness of the `theme` cell: `null` and the empty string are falsy. -/
def truthy : Option String → Bool
  | none => false
  | some s => decide (s ≠ "")

/-- The writes to the state cells of `App`. -/
inductive Event where
  /-- The load-time effect (lines 456-459), with the value of `new Date().getHours()`. -/
  | loadTheme (currentHour : Nat)
  /-- A click on either theme toggle button: `toggleTheme` (lines 485-487). -/
  | toggleClick
  /-- A click on the mobile-menu button: `setIsMenuOpen(!isMenuOpen)` (line 166). -/
  | menuButtonClick
  /-- A click on a link of the mobile menu: `setIsMenuOpen(false)` (line 187). -/
  | menuLinkClick
  /-- The deferred timer: `setIsLoaded(true)` (line 473). -/
  | loadedTimer
  deriving DecidableEq, Repr

/-- The state after one write. -/
def step (s : AppState) : Event → AppState
  | .loadTheme currentHour => { s with theme := some (themeForHour currentHour) }
  | .toggleClick => { s with theme := toggleTheme s.theme }
  | .menuButtonClick => { s with isMenuOpen := !s.isMenuOpen }
  | .menuLinkClick => { s with isMenuOpen := false }
  | .loadedTimer => { s with isLoaded := true }

/-- The state after a sequence of writes, oldest first. -/
def run (s : AppState) (events : List Event) : AppState :=
  events.foldl step s

/-! ## `App`: what is rendered and what the effects write -/

/-- The `className` template of the root element (line 494): the text "app ", then
`isLoaded ? 'loaded' : ''`. -/
def appClassName (isLoaded : Bool) : String :=
  "app " ++ (if isLoaded then "loaded" else "")

/-- The `className` of the root `div` that `App` returns, `none` when `App` returns `null`
(the guard `if (!theme)` of line 489). -/
def rootClassName (s : AppState) : Option String :=
  if !truthy s.theme then none else some (appClassName s.isLoaded)

/-- ASCII whitespace, the separator of class names in a `class` attribute. -/
def isAsciiWhitespace (c : Char) : Bool :=
  c = ' ' || c = '\t' || c = '\n' || c = '\x0c' || c = '\r'

/-- The whitespace-separated tokens of a character list; `cur` holds the characters of the
token being read, newest first. -/
def splitTokens : List Char → List Char → List String
  | [], cur => if cur.isEmpty then [] else [String.mk cur.reverse]
  | c :: cs, cur =>
    if isAsciiWhitespace c then
      (if cur.isEmpty then splitTokens cs [] else String.mk cur.reverse :: splitTokens cs [])
    else splitTokens cs (c :: cur)

/-- The class names an element with the given `className` carries, in order. -/
def classList (className : String) : List String :=
  splitTokens className.toList []

/-- The two parts of the document that `App` writes. -/
structure Document where
  /-- Attributes of `document.documentElement`, as name-value pairs. -/
  rootAttributes : List (String × String)
  /-- The class names of `document.body`. -/
  bodyClassList : List String
  deriving DecidableEq, Repr

/-- `element.getAttribute(name)`: the value of the first attribute of that name. -/
def getAttribute (attrs : List (String × String)) (name : String) : Option String :=
  (attrs.find? (fun a => decide (a.1 = name))).map (fun a => a.2)

/-- `element.setAttribute(name, value)`: replace the value of an attribute that is present,
add the attribute otherwise. -/
def setAttribute (attrs : List (String × String)) (name value : String) : List (String × String) :=
  if attrs.any (fun a => decide (a.1 = name)) then
    attrs.map (fun a => if a.1 = name then (name, value) else a)
  else attrs ++ [(name, value)]

/-- `classList.add(token)`. -/
def classListAdd (classes : List String) (token : String) : List String :=
  if token ∈ classes then classes else classes ++ [token]

/-- `classList.remove(token)`. -/
def classListRemove (classes : List String) (token : String) : List String :=
  classes.filter (fun c => decide (c ≠ token))

/-- The effect with dependencies `[theme, isMenuOpen]` (lines 461-470). -/
def syncEffect (s : AppState) (d : Document) : Document :=
  let root :=
    match s.theme with
    | some theme =>
      if truthy (some theme) then setAttribute d.rootAttributes "data-theme" theme
      else d.rootAttributes
    | none => d.rootAttributes
  let body :=
    if s.isMenuOpen then classListAdd d.bodyClassList "no-scroll"
    else classListRemove d.bodyClassList "no-scroll"
  { rootAttributes := root, bodyClassList := body }

/-! ## `RadialSkillChart` -/

section Numeric

variable {α : Type} [LinearOrderedField α]

/-- `Math.round`: the nearest integer, a tie going up. -/
def mathRound [FloorRing α] (x : α) : ℤ :=
  ⌊x + 1 / 2⌋

/-- The constant `radius` (line 284). -/
def radius : α := 45

/-- The constant `strokeWidth` (line 284). -/
def strokeWidth : α := 8

/-- The constant `normalizedRadius` (line 285): `radius - strokeWidth / 2`. -/
def normalizedRadius : α := radius - strokeWidth / 2

/-- The constant `circumference` (line 286): `normalizedRadius * 2 * Math.PI`. -/
def circumference (pi : α) : α := normalizedRadius * 2 * pi

/-- What one `RadialSkillChart` shows: the number in the centre and, when `circleRef.current`
is attached, the `strokeDashoffset` style of the foreground circle. -/
structure ChartView (α : Type) where
  animatedLevel : ℤ
  strokeDashoffset : Option α

/-- The chart as first rendered: `useState(0)` and `style={{ strokeDashoffset: circumference }}`
(lines 282 and 316). -/
def ChartView.initial (pi : α) : ChartView α :=
  { animatedLevel := 0, strokeDashoffset := some (circumference pi) }

/-- The expression assigned to `style.strokeDashoffset` (line 299),
`circumference - (latest / 100) * circumference`, read in exact arithmetic; the value the code
computes, in doubles, is `Binary64.dashoffset`. -/
def dashoffset (pi latest : α) : α :=
  circumference pi - (latest / 100) * circumference pi

/-- The `onUpdate` callback of the animation (lines 293-301), read in exact arithmetic;
`Binary64.onUpdate` is the same callback with the stroke offset in doubles. -/
def onUpdate [FloorRing α] (pi latest : α) (v : ChartView α) : ChartView α :=
  { animatedLevel := mathRound latest
    strokeDashoffset := v.strokeDashoffset.map (fun _ => dashoffset pi latest) }

/-! ## `VrThinkerModel` -/

/-- A triple of coordinates. -/
structure Vec3 (α : Type) where
  x : α
  y : α
  z : α

/-- The fields of the 3D object that the frame callback writes. -/
structure Object3D (α : Type) where
  scale : Vec3 α
  position : Vec3 α
  rotationY : α

/-- The callback given to `useFrame` (lines 116-127). `now1` and `now2` are the values of the
two calls of `Date.now()`, `model` is `modelRef.current`. -/
def frameCallback (sin : α → α) (pi : α) (isMobile : Bool) (now1 now2 : α)
    (model : Option (Object3D α)) : Option (Object3D α) :=
  match model with
  | none => none
  | some _ =>
    let breathe := sin (now1 * 0.0008) * 0.005 + 1
    let floatY := sin (now2 * 0.0005) * 0.05
    let scale : α := if isMobile then 0.0 else 0.125
    let positionX : α := if isMobile then 0 else 3.15
    let positionY : α := if isMobile then floatY - 2.5 else floatY - 3.25
    some { scale := ⟨scale * breathe, scale * breathe, scale * breathe⟩
           position := ⟨positionX, positionY, 0⟩
           rotationY := pi * 0.0 }

end Numeric

/-! ## `RadialSkillChart` in binary64 arithmetic

The stroke offset of line 299 is computed in IEEE 754 binary64 numbers (the only number type
of the language), with every operation rounded to nearest, ties to even. A finite double is the
rational number it stands for. Overflow to an infinity (a result of magnitude `2 ^ 1024` or more)
and division by zero do not occur in the expressions embedded here for `latest` of magnitude
below `10 ^ 300`, and are not modelled. -/

namespace Binary64

/-- The integer nearest to `x`, the even one of the two when `x` lies half-way. -/
def roundHalfEven (x : ℚ) : ℤ :=
  if x - ⌊x⌋ < 1 / 2 then ⌊x⌋
  else if 1 / 2 < x - ⌊x⌋ then ⌊x⌋ + 1
  else if ⌊x⌋ % 2 = 0 then ⌊x⌋
  else ⌊x⌋ + 1

/-- The exponent of the unit in the last place of the doubles around `x ≥ 0`: 52 binary places
below the leading bit (53 significant bits), and never below that of the subnormal numbers,
`2 ^ (-1074)`. -/
def ulpExponent (x : ℚ) : ℤ :=
  max (Int.log 2 x - 52) (-1074)

/-- The double nearest to `x ≥ 0`: `x` rounded to a multiple of its unit in the last place. -/
def roundMagnitude (x : ℚ) : ℚ :=
  roundHalfEven (x / 2 ^ ulpExponent x) * 2 ^ ulpExponent x

/-- The double nearest to `x`, ties to even; rounding is symmetric in the sign. -/
def roundDouble (x : ℚ) : ℚ :=
  if x < 0 then -roundMagnitude (-x) else roundMagnitude x

/-- The operator `-` on doubles. -/
def fsub (a b : ℚ) : ℚ := roundDouble (a - b)

/-- The operator `*` on doubles. -/
def fmul (a b : ℚ) : ℚ := roundDouble (a * b)

/-- The operator `/` on doubles, for a divisor other than zero. -/
def fdiv (a b : ℚ) : ℚ := roundDouble (a / b)

/-- The constant `Math.PI`, the double `3.141592653589793` (bits `0x400921FB54442D18`). -/
def PI : ℚ := 884279719003555 / 2 ^ 48

/-- The constant `normalizedRadius` (line 285), `radius - strokeWidth / 2`, in doubles. -/
def normalizedRadius : ℚ := fsub radius (fdiv strokeWidth 2)

/-- The constant `circumference` (line 286), `normalizedRadius * 2 * Math.PI`, in doubles. -/
def circumference : ℚ := fmul (fmul normalizedRadius 2) PI

/-- The value assigned to `style.strokeDashoffset` (line 299),
`circumference - (latest / 100) * circumference`, in doubles. -/
def dashoffset (latest : ℚ) : ℚ :=
  fsub circumference (fmul (fdiv latest 100) circumference)

/-- The chart as first rendered (lines 282 and 316), in doubles. -/
def initialView : ChartView ℚ :=
  { animatedLevel := 0, strokeDashoffset := some circumference }

/-- The `onUpdate` callback of the animation (lines 293-301), in doubles. -/
def onUpdate (latest : ℚ) (v : ChartView ℚ) : ChartView ℚ :=
  { animatedLevel := mathRound latest
    strokeDashoffset := v.strokeDashoffset.map (fun _ => dashoffset latest) }

end Binary64

/-! ## Navigation and the theme toggle buttons -/

/-- One `{ href, title }` record of `navLinks`. -/
structure NavLink where
  href : String
  title : String
  deriving DecidableEq, Repr

/-- The array `navLinks` of `App` (lines 477-483), passed to `DesktopNavbar`, `MobileMenu`
and `Footer`. -/
def navLinks : List NavLink :=
  [ { href := "#home", title := "Home" },
    { href := "#about", title := "About" },
    { href := "#skills", title := "Skills" },
    { href := "#projects", title := "Work" },
    { href := "#contact", title := "Contact" } ]

/-- The `href`s of the two call-to-action links of `HeroSection` (lines 223-224). -/
def heroCtaHrefs : List String :=
  ["#projects", "#contact"]

/-- The `id`s of the sections in `<main>` (lines 501-506), in order: `HeroSection` (line 205),
`AboutSection` (233), `SkillsSection` (330), `ProjectsSection` (356), `TestimonialsSection`
(402), `ContactSection` (421). -/
def sectionIds : List String :=
  ["home", "about", "skills", "projects", "testimonials", "contact"]

/-- The `aria-label` of the toggle button of `DesktopNavbar` (line 150): the template
"Switch to ", then `theme === 'light' ? 'dark' : 'light'`, then " theme". -/
def desktopToggleLabel (theme : Option String) : String :=
  "Switch to " ++ (if theme = some "light" then "dark" else "light") ++ " theme"

/-- The content of the toggle button of `DesktopNavbar` (line 151):
`theme === 'light' ? '🌙' : '☀️'`. -/
def desktopToggleIcon (theme : Option String) : String :=
  if theme = some "light" then "🌙" else "☀️"

/-- The `aria-label` of the button `mobile-theme-toggle-header` of `App` (line 497). -/
def mobileToggleLabel (theme : Option String) : String :=
  "Switch to " ++ (if theme = some "light" then "dark" else "light") ++ " theme"

/-- The content of the button `mobile-theme-toggle-header` of `App` (line 497). -/
def mobileToggleIcon (theme : Option String) : String :=
  if theme = some "light" then "🌙" else "☀️"

/-! ## Auxiliary facts -/

lemma mathRound_intCast {α : Type} [LinearOrderedField α] [FloorRing α] (n : ℤ) :
    mathRound (n : α) = n := by
  unfold mathRound
  rw [Int.floor_eq_iff]
  constructor
  · linarith [show (0 : α) ≤ 1 / 2 by norm_num]
  · linarith [show (1 : α) / 2 < 1 by norm_num]

lemma getAttribute_map_set (attrs : List (String × String)) (name value : String)
    (h : attrs.any (fun a => decide (a.1 = name)) = true) :
    getAttribute (attrs.map (fun a => if a.1 = name then (name, value) else a)) name
      = some value := by
  induction attrs with
  | nil => simp at h
  | cons a rest ih =>
    by_cases ha : a.1 = name
    · simp [getAttribute, List.find?, ha]
    · have hrest : rest.any (fun a => decide (a.1 = name)) = true := by
        simpa [List.any_cons, ha] using h
      have := ih hrest
      simpa [getAttribute, List.find?, ha] using this

lemma getAttribute_append_new (attrs : List (String × String)) (name value : String)
    (h : attrs.any (fun a => decide (a.1 = name)) = false) :
    getAttribute (attrs ++ [(name, value)]) name = some value := by
  induction attrs with
  | nil => simp [getAttribute, List.find?]
  | cons a rest ih =>
    have ha : ¬ a.1 = name := by
      intro e
      simp [List.any_cons, e] at h
    have hrest : rest.any (fun a => decide (a.1 = name)) = false := by
      simpa [List.any_cons, ha] using h
    have := ih hrest
    simpa [getAttribute, List.find?, ha] using this

lemma getAttribute_setAttribute (attrs : List (String × String)) (name value : String) :
    getAttribute (setAttribute attrs name value) name = some value := by
  unfold setAttribute
  by_cases h : attrs.any (fun a => decide (a.1 = name)) = true
  · rw [if_pos h]
    exact getAttribute_map_set attrs name value h
  · rw [if_neg h]
    exact getAttribute_append_new attrs name value (Bool.eq_false_iff.mpr h)

lemma step_theme_valid (s : AppState) (e : Event)
    (h : s.theme = some "light" ∨ s.theme = some "dark") :
    (step s e).theme = some "light" ∨ (step s e).theme = some "dark" := by
  cases e with
  | loadTheme hour =>
    show some (themeForHour hour) = _ ∨ some (themeForHour hour) = _
    unfold themeForHour
    split
    · exact Or.inr rfl
    · exact Or.inl rfl
  | toggleClick =>
    show toggleTheme s.theme = _ ∨ toggleTheme s.theme = _
    unfold toggleTheme
    split
    · exact Or.inr rfl
    · exact Or.inl rfl
  | menuButtonClick => exact h
  | menuLinkClick => exact h
  | loadedTimer => exact h

lemma run_theme_valid (events : List Event) (s : AppState)
    (h : s.theme = some "light" ∨ s.theme = some "dark") :
    (run s events).theme = some "light" ∨ (run s events).theme = some "dark" := by
  induction events generalizing s with
  | nil => exact h
  | cons e rest ih => exact ih (step s e) (step_theme_valid s e h)

lemma step_theme_cases (s : AppState) (e : Event)
    (h : s.theme = none ∨ s.theme = some "light" ∨ s.theme = some "dark") :
    (step s e).theme = none ∨ (step s e).theme = some "light" ∨
      (step s e).theme = some "dark" := by
  cases e with
  | loadTheme hour =>
    right
    show some (themeForHour hour) = _ ∨ some (themeForHour hour) = _
    unfold themeForHour
    split
    · exact Or.inr rfl
    · exact Or.inl rfl
  | toggleClick =>
    right
    show toggleTheme s.theme = _ ∨ toggleTheme s.theme = _
    unfold toggleTheme
    split
    · exact Or.inr rfl
    · exact Or.inl rfl
  | menuButtonClick => exact h
  | menuLinkClick => exact h
  | loadedTimer => exact h

lemma run_theme_cases (events : List Event) (s : AppState)
    (h : s.theme = none ∨ s.theme = some "light" ∨ s.theme = some "dark") :
    (run s events).theme = none ∨ (run s events).theme = some "light" ∨
      (run s events).theme = some "dark" := by
  induction events generalizing s with
  | nil => exact h
  | cons e rest ih => exact ih (step s e) (step_theme_cases s e h)

lemma step_loadTheme_valid (s : AppState) (hour : Nat) :
    (step s (.loadTheme hour)).theme = some "light" ∨
      (step s (.loadTheme hour)).theme = some "dark" := by
  show some (themeForHour hour) = _ ∨ some (themeForHour hour) = _
  unfold themeForHour
  split
  · exact Or.inr rfl
  · exact Or.inl rfl

lemma run_append (s : AppState) (xs ys : List Event) :
    run s (xs ++ ys) = run (run s xs) ys := by
  simp [run, List.foldl_append]

lemma step_isLoaded_of_true (s : AppState) (e : Event) (h : s.isLoaded = true) :
    (step s e).isLoaded = true := by
  cases e <;> first | exact h | rfl

lemma run_isLoaded_of_true (events : List Event) (s : AppState) (h : s.isLoaded = true) :
    (run s events).isLoaded = true := by
  induction events generalizing s with
  | nil => exact h
  | cons e rest ih => exact ih (step s e) (step_isLoaded_of_true s e h)

lemma run_isLoaded_iff (events : List Event) (s : AppState) (h : s.isLoaded = false) :
    (run s events).isLoaded = true ↔ Event.loadedTimer ∈ events := by
  induction events generalizing s with
  | nil => simp [run, h]
  | cons e rest ih =>
    show (run (step s e) rest).isLoaded = true ↔ _
    cases e with
    | loadedTimer =>
      simp only [List.mem_cons, true_or, iff_true]
      exact run_isLoaded_of_true rest _ rfl
    | loadTheme hour => simpa using ih (step s (.loadTheme hour)) h
    | toggleClick => simpa using ih (step s .toggleClick) h
    | menuButtonClick => simpa using ih (step s .menuButtonClick) h
    | menuLinkClick => simpa using ih (step s .menuLinkClick) h

lemma mem_classListAdd (classes : List String) (token : String) :
    token ∈ classListAdd classes token := by
  unfold classListAdd
  split
  · assumption
  · simp

lemma not_mem_classListRemove (classes : List String) (token : String) :
    token ∉ classListRemove classes token := by
  simp [classListRemove, List.mem_filter]

/-! ## Auxiliary facts: binary64 rounding -/

namespace Binary64

lemma roundHalfEven_intCast (n : ℤ) : roundHalfEven (n : ℚ) = n := by
  unfold roundHalfEven
  simp

lemma floor_le_roundHalfEven (x : ℚ) : ⌊x⌋ ≤ roundHalfEven x := by
  unfold roundHalfEven
  split_ifs <;> omega

lemma roundHalfEven_le_floor_succ (x : ℚ) : roundHalfEven x ≤ ⌊x⌋ + 1 := by
  unfold roundHalfEven
  split_ifs <;> omega

lemma roundHalfEven_mono {x y : ℚ} (h : x ≤ y) : roundHalfEven x ≤ roundHalfEven y := by
  have hf : ⌊x⌋ ≤ ⌊y⌋ := Int.floor_mono h
  rcases hf.lt_or_eq with hlt | heq
  · calc roundHalfEven x ≤ ⌊x⌋ + 1 := roundHalfEven_le_floor_succ x
      _ ≤ ⌊y⌋ := hlt
      _ ≤ roundHalfEven y := floor_le_roundHalfEven y
  · have hfrac : x - ⌊x⌋ ≤ y - ⌊y⌋ := by rw [heq]; linarith
    unfold roundHalfEven
    rw [heq] at hfrac ⊢
    split_ifs <;> first | omega | (exfalso; linarith)

lemma roundHalfEven_nonneg {x : ℚ} (h : 0 ≤ x) : 0 ≤ roundHalfEven x :=
  le_trans (Int.floor_nonneg.mpr h) (floor_le_roundHalfEven x)

lemma roundMagnitude_zero : roundMagnitude 0 = 0 := by
  unfold roundMagnitude
  rw [zero_div]
  have : roundHalfEven 0 = 0 := by exact_mod_cast roundHalfEven_intCast 0
  rw [this]
  simp

lemma roundMagnitude_nonneg {x : ℚ} (h : 0 ≤ x) : 0 ≤ roundMagnitude x := by
  unfold roundMagnitude
  have hq : (0 : ℚ) < 2 ^ ulpExponent x := zpow_pos (by norm_num) _
  have : (0 : ℚ) ≤ (roundHalfEven (x / 2 ^ ulpExponent x) : ℚ) := by
    exact_mod_cast roundHalfEven_nonneg (div_nonneg h hq.le)
  exact mul_nonneg this hq.le

lemma ulpExponent_mono {x y : ℚ} (hx : 0 < x) (h : x ≤ y) : ulpExponent x ≤ ulpExponent y := by
  unfold ulpExponent
  have := Int.log_mono_right (b := 2) hx h
  exact max_le_max (by omega) le_rfl

lemma lt_zpow_ulpExponent (x : ℚ) : x < 2 ^ (ulpExponent x + 53) := by
  have h1 : x < ((2 : ℕ) : ℚ) ^ (Int.log 2 x + 1) := Int.lt_zpow_succ_log_self (by norm_num) x
  have h2 : Int.log 2 x + 1 ≤ ulpExponent x + 53 := by
    unfold ulpExponent
    have := le_max_left (Int.log 2 x - 52) (-1074)
    omega
  have h3 : ((2 : ℕ) : ℚ) ^ (Int.log 2 x + 1) ≤ (2 : ℚ) ^ (ulpExponent x + 53) := by
    push_cast
    exact zpow_le_zpow_right₀ (by norm_num) h2
  exact lt_of_lt_of_le h1 h3

lemma zpow_ulpExponent_le {y : ℚ} (hy : 0 < y) (h : -1074 < ulpExponent y) :
    (2 : ℚ) ^ (ulpExponent y + 52) ≤ y := by
  have he : ulpExponent y = Int.log 2 y - 52 := by
    unfold ulpExponent at h ⊢
    rcases max_cases (Int.log 2 y - 52) (-1074) with ⟨h1, _⟩ | ⟨h1, _⟩
    · exact h1
    · rw [h1] at h; exact absurd h (lt_irrefl _)
  have h1 : ((2 : ℕ) : ℚ) ^ Int.log 2 y ≤ y := Int.zpow_log_le_self (by norm_num) hy
  rw [he]
  have : Int.log 2 y - 52 + 52 = Int.log 2 y := by ring
  rw [this]
  exact_mod_cast h1

lemma roundMagnitude_mono {x y : ℚ} (hx : 0 ≤ x) (h : x ≤ y) :
    roundMagnitude x ≤ roundMagnitude y := by
  rcases hx.lt_or_eq with hpos | hzero
  · have hy : 0 < y := lt_of_lt_of_le hpos h
    have he := ulpExponent_mono hpos h
    have hqx : (0 : ℚ) < 2 ^ ulpExponent x := zpow_pos (by norm_num) _
    have hqy : (0 : ℚ) < 2 ^ ulpExponent y := zpow_pos (by norm_num) _
    rcases he.lt_or_eq with hlt | heq
    · -- different binades: the top of the lower one separates the two results
      have hy1 : -1074 < ulpExponent y := by
        have : -1074 ≤ ulpExponent x := le_max_right _ _
        omega
      have hxq : x / 2 ^ ulpExponent x ≤ ((2 ^ 53 : ℤ) : ℚ) := by
        rw [div_le_iff₀ hqx]
        have := lt_zpow_ulpExponent x
        rw [zpow_add₀ (by norm_num : (2 : ℚ) ≠ 0)] at this
        push_cast
        have e : (2 : ℚ) ^ (53 : ℤ) = 2 ^ 53 := by norm_cast
        rw [e] at this
        linarith
      have hyq : ((2 ^ 52 : ℤ) : ℚ) ≤ y / 2 ^ ulpExponent y := by
        rw [le_div_iff₀ hqy]
        have := zpow_ulpExponent_le hy hy1
        rw [zpow_add₀ (by norm_num : (2 : ℚ) ≠ 0)] at this
        push_cast
        have e : (2 : ℚ) ^ (52 : ℤ) = 2 ^ 52 := by norm_cast
        rw [e] at this
        linarith
      have r1 : roundHalfEven (x / 2 ^ ulpExponent x) ≤ 2 ^ 53 := by
        have := roundHalfEven_mono hxq
        rwa [roundHalfEven_intCast] at this
      have r2 : (2 ^ 52 : ℤ) ≤ roundHalfEven (y / 2 ^ ulpExponent y) := by
        have := roundHalfEven_mono hyq
        rwa [roundHalfEven_intCast] at this
      have r1q : (roundHalfEven (x / 2 ^ ulpExponent x) : ℚ) ≤ 2 ^ 53 := by exact_mod_cast r1
      have r2q : (2 ^ 52 : ℚ) ≤ (roundHalfEven (y / 2 ^ ulpExponent y) : ℚ) := by
        exact_mod_cast r2
      have hstep : (2 : ℚ) ^ 53 * 2 ^ ulpExponent x ≤ 2 ^ 52 * 2 ^ ulpExponent y := by
        have h1 : (2 : ℚ) ^ (ulpExponent x + 1) ≤ 2 ^ ulpExponent y :=
          zpow_le_zpow_right₀ (by norm_num) (by omega)
        rw [zpow_add₀ (by norm_num : (2 : ℚ) ≠ 0), zpow_one] at h1
        have e : (2 : ℚ) ^ 53 = 2 ^ 52 * 2 := by norm_num
        rw [e]
        nlinarith
      unfold roundMagnitude
      calc (roundHalfEven (x / 2 ^ ulpExponent x) : ℚ) * 2 ^ ulpExponent x
          ≤ 2 ^ 53 * 2 ^ ulpExponent x := mul_le_mul_of_nonneg_right r1q hqx.le
        _ ≤ 2 ^ 52 * 2 ^ ulpExponent y := hstep
        _ ≤ (roundHalfEven (y / 2 ^ ulpExponent y) : ℚ) * 2 ^ ulpExponent y :=
            mul_le_mul_of_nonneg_right r2q hqy.le
    · -- same binade: rounding to a multiple of one unit
      unfold roundMagnitude
      rw [← heq]
      have : x / 2 ^ ulpExponent x ≤ y / 2 ^ ulpExponent x :=
        div_le_div_of_nonneg_right h hqx.le
      have := roundHalfEven_mono this
      have hq : (roundHalfEven (x / 2 ^ ulpExponent x) : ℚ)
          ≤ (roundHalfEven (y / 2 ^ ulpExponent x) : ℚ) := by exact_mod_cast this
      exact mul_le_mul_of_nonneg_right hq hqx.le
  · rw [← hzero, roundMagnitude_zero]
    exact roundMagnitude_nonneg (by rw [← hzero] at h; exact h)

lemma roundDouble_mono {x y : ℚ} (h : x ≤ y) : roundDouble x ≤ roundDouble y := by
  unfold roundDouble
  by_cases hx : x < 0
  · by_cases hy : y < 0
    · rw [if_pos hx, if_pos hy]
      have := roundMagnitude_mono (x := -y) (y := -x) (by linarith) (by linarith)
      linarith
    · rw [if_pos hx, if_neg hy]
      have h1 := roundMagnitude_nonneg (x := -x) (by linarith)
      have h2 := roundMagnitude_nonneg (x := y) (by linarith)
      linarith
  · have hy : ¬ y < 0 := by
      intro hy; exact hx (by linarith)
    rw [if_neg hx, if_neg hy]
    exact roundMagnitude_mono (by linarith) h

lemma roundHalfEven_eq_of_near {x : ℚ} {n : ℤ} (h1 : (n : ℚ) - 1 / 2 < x)
    (h2 : x < (n : ℚ) + 1 / 2) : roundHalfEven x = n := by
  unfold roundHalfEven
  by_cases hx : (n : ℚ) ≤ x
  · have hf : ⌊x⌋ = n := by
      rw [Int.floor_eq_iff]
      exact ⟨hx, by linarith⟩
    rw [hf, if_pos (by linarith)]
  · have hf : ⌊x⌋ = n - 1 := by
      rw [Int.floor_eq_iff]
      push_cast
      exact ⟨by linarith, by linarith [not_le.mp hx]⟩
    rw [hf]
    push_cast
    rw [if_neg (by linarith), if_pos (by linarith)]
    ring

lemma roundDouble_eval (x : ℚ) (e m : ℤ) (he : -1074 ≤ e)
    (hlo : (2 : ℚ) ^ (e + 52) ≤ x) (hhi : x < (2 : ℚ) ^ (e + 53))
    (h1 : ((m : ℚ) - 1 / 2) * 2 ^ e < x) (h2 : x < ((m : ℚ) + 1 / 2) * 2 ^ e) :
    roundDouble x = m * 2 ^ e := by
  have hpos : 0 < x := lt_of_lt_of_le (zpow_pos (by norm_num) _) hlo
  have hlog : Int.log 2 x = e + 52 := by
    apply le_antisymm
    · have : Int.log 2 x < e + 53 := by
        rw [← Int.lt_zpow_iff_log_lt (by norm_num) hpos]
        exact_mod_cast hhi
      omega
    · rw [← Int.zpow_le_iff_le_log (by norm_num) hpos]
      exact_mod_cast hlo
  have hexp : ulpExponent x = e := by
    unfold ulpExponent
    rw [hlog]
    have : e + 52 - 52 = e := by ring
    rw [this]
    exact max_eq_left he
  have hq : (0 : ℚ) < 2 ^ e := zpow_pos (by norm_num) _
  unfold roundDouble
  rw [if_neg (not_lt.mpr hpos.le)]
  unfold roundMagnitude
  rw [hexp, roundHalfEven_eq_of_near (n := m)]
  · rw [lt_div_iff₀ hq]; exact h1
  · rw [div_lt_iff₀ hq]; exact h2

lemma roundDouble_zero : roundDouble 0 = 0 := by
  unfold roundDouble
  rw [if_neg (lt_irrefl _)]
  exact roundMagnitude_zero

lemma roundHalfEven_eq_of_even {x : ℚ} {n : ℤ} (hn : n % 2 = 0) (h1 : (n : ℚ) - 1 / 2 ≤ x)
    (h2 : x ≤ (n : ℚ) + 1 / 2) : roundHalfEven x = n := by
  unfold roundHalfEven
  by_cases hx : (n : ℚ) ≤ x
  · have hf : ⌊x⌋ = n := by
      rw [Int.floor_eq_iff]
      exact ⟨hx, by linarith⟩
    rw [hf]
    split_ifs <;> first | (exfalso; linarith) | rfl
  · have hf : ⌊x⌋ = n - 1 := by
      rw [Int.floor_eq_iff]
      push_cast
      exact ⟨by linarith, by linarith [not_le.mp hx]⟩
    rw [hf]
    push_cast
    split_ifs <;> first | (exfalso; linarith) | (exfalso; omega) | ring

lemma roundDouble_eval_even (x : ℚ) (e m : ℤ) (he : -1074 ≤ e) (hm : m % 2 = 0)
    (hlo : (2 : ℚ) ^ (e + 52) ≤ x) (hhi : x < (2 : ℚ) ^ (e + 53))
    (h1 : ((m : ℚ) - 1 / 2) * 2 ^ e ≤ x) (h2 : x ≤ ((m : ℚ) + 1 / 2) * 2 ^ e) :
    roundDouble x = m * 2 ^ e := by
  have hpos : 0 < x := lt_of_lt_of_le (zpow_pos (by norm_num) _) hlo
  have hlog : Int.log 2 x = e + 52 := by
    apply le_antisymm
    · have : Int.log 2 x < e + 53 := by
        rw [← Int.lt_zpow_iff_log_lt (by norm_num) hpos]
        exact_mod_cast hhi
      omega
    · rw [← Int.zpow_le_iff_le_log (by norm_num) hpos]
      exact_mod_cast hlo
  have hexp : ulpExponent x = e := by
    unfold ulpExponent
    rw [hlog]
    have : e + 52 - 52 = e := by ring
    rw [this]
    exact max_eq_left he
  have hq : (0 : ℚ) < 2 ^ e := zpow_pos (by norm_num) _
  unfold roundDouble
  rw [if_neg (not_lt.mpr hpos.le)]
  unfold roundMagnitude
  rw [hexp, roundHalfEven_eq_of_even hm]
  · rw [le_div_iff₀ hq]; exact h1
  · rw [div_le_iff₀ hq]; exact h2

lemma normalizedRadius_eq : normalizedRadius = 41 := by
  have h1 : roundDouble ((8 : ℚ) / 2) = 4 :=
    (roundDouble_eval _ (-50) 4503599627370496 (by norm_num) (by norm_num) (by norm_num)
      (by norm_num) (by norm_num)).trans (by norm_num)
  have h2 : roundDouble ((45 : ℚ) - 4) = 41 :=
    (roundDouble_eval _ (-47) 5770237022568448 (by norm_num) (by norm_num) (by norm_num)
      (by norm_num) (by norm_num)).trans (by norm_num)
  unfold normalizedRadius fsub fdiv radius strokeWidth
  rw [h1, h2]

lemma circumference_eq : circumference = 4531933559893219 / 2 ^ 44 := by
  have h1 : roundDouble ((41 : ℚ) * 2) = 82 :=
    (roundDouble_eval _ (-46) 5770237022568448 (by norm_num) (by norm_num) (by norm_num)
      (by norm_num) (by norm_num)).trans (by norm_num)
  have h2 : roundDouble ((82 : ℚ) * (884279719003555 / 2 ^ 48)) = 4531933559893219 / 2 ^ 44 :=
    (roundDouble_eval _ (-44) 4531933559893219 (by norm_num) (by norm_num) (by norm_num)
      (by norm_num) (by norm_num)).trans (by norm_num)
  unfold circumference fmul PI
  rw [normalizedRadius_eq, h1, h2]

lemma roundDouble_circumference : roundDouble (4531933559893219 / 2 ^ 44) = 4531933559893219 / 2 ^ 44 :=
  (roundDouble_eval _ (-44) 4531933559893219 (by norm_num) (by norm_num) (by norm_num)
      (by norm_num) (by norm_num)).trans (by norm_num)

lemma dashoffset_at_80 : dashoffset (80) = 1812773423957287 / 2 ^ 45 := by
  have h1 : roundDouble ((80 : ℚ) / 100) = 3602879701896397 / 2 ^ 52 :=
    (roundDouble_eval _ (-53) 7205759403792794 (by norm_num) (by norm_num) (by norm_num)
      (by norm_num) (by norm_num)).trans (by norm_num)
  have h2 : roundDouble ((3602879701896397 / 2 ^ 52 : ℚ) * (4531933559893219 / 2 ^ 44)) = 7251093695829151 / 2 ^ 45 :=
    (roundDouble_eval _ (-45) 7251093695829151 (by norm_num) (by norm_num) (by norm_num)
      (by norm_num) (by norm_num)).trans (by norm_num)
  have h3 : roundDouble ((4531933559893219 / 2 ^ 44 : ℚ) - 7251093695829151 / 2 ^ 45) = 1812773423957287 / 2 ^ 45 :=
    (roundDouble_eval _ (-47) 7251093695829148 (by norm_num) (by norm_num) (by norm_num)
      (by norm_num) (by norm_num)).trans (by norm_num)
  unfold dashoffset fsub fmul fdiv
  rw [circumference_eq, h1, h2, h3]

lemma dashoffset_at_90 : dashoffset (90) = 226596677994661 / 2 ^ 43 := by
  have h1 : roundDouble ((90 : ℚ) / 100) = 8106479329266893 / 2 ^ 53 :=
    (roundDouble_eval _ (-53) 8106479329266893 (by norm_num) (by norm_num) (by norm_num)
      (by norm_num) (by norm_num)).trans (by norm_num)
  have h2 : roundDouble ((8106479329266893 / 2 ^ 53 : ℚ) * (4531933559893219 / 2 ^ 44)) = 4078740203903897 / 2 ^ 44 :=
    (roundDouble_eval _ (-45) 8157480407807794 (by norm_num) (by norm_num) (by norm_num)
      (by norm_num) (by norm_num)).trans (by norm_num)
  have h3 : roundDouble ((4531933559893219 / 2 ^ 44 : ℚ) - 4078740203903897 / 2 ^ 44) = 226596677994661 / 2 ^ 43 :=
    (roundDouble_eval _ (-48) 7251093695829152 (by norm_num) (by norm_num) (by norm_num)
      (by norm_num) (by norm_num)).trans (by norm_num)
  unfold dashoffset fsub fmul fdiv
  rw [circumference_eq, h1, h2, h3]

lemma dashoffset_at_85 : dashoffset (85) = 679790033983983 / 2 ^ 44 := by
  have h1 : roundDouble ((85 : ℚ) / 100) = 7656119366529843 / 2 ^ 53 :=
    (roundDouble_eval _ (-53) 7656119366529843 (by norm_num) (by norm_num) (by norm_num)
      (by norm_num) (by norm_num)).trans (by norm_num)
  have h2 : roundDouble ((7656119366529843 / 2 ^ 53 : ℚ) * (4531933559893219 / 2 ^ 44)) = 963035881477309 / 2 ^ 42 :=
    (roundDouble_eval _ (-45) 7704287051818472 (by norm_num) (by norm_num) (by norm_num)
      (by norm_num) (by norm_num)).trans (by norm_num)
  have h3 : roundDouble ((4531933559893219 / 2 ^ 44 : ℚ) - 963035881477309 / 2 ^ 42) = 679790033983983 / 2 ^ 44 :=
    (roundDouble_eval _ (-47) 5438320271871864 (by norm_num) (by norm_num) (by norm_num)
      (by norm_num) (by norm_num)).trans (by norm_num)
  unfold dashoffset fsub fmul fdiv
  rw [circumference_eq, h1, h2, h3]

lemma dashoffset_at_60 : dashoffset (60) = 3625546847914575 / 2 ^ 45 := by
  have h1 : roundDouble ((60 : ℚ) / 100) = 5404319552844595 / 2 ^ 53 :=
    (roundDouble_eval _ (-53) 5404319552844595 (by norm_num) (by norm_num) (by norm_num)
      (by norm_num) (by norm_num)).trans (by norm_num)
  have h2 : roundDouble ((5404319552844595 / 2 ^ 53 : ℚ) * (4531933559893219 / 2 ^ 44)) = 5438320271871863 / 2 ^ 45 :=
    (roundDouble_eval _ (-45) 5438320271871863 (by norm_num) (by norm_num) (by norm_num)
      (by norm_num) (by norm_num)).trans (by norm_num)
  have h3 : roundDouble ((4531933559893219 / 2 ^ 44 : ℚ) - 5438320271871863 / 2 ^ 45) = 3625546847914575 / 2 ^ 45 :=
    (roundDouble_eval _ (-46) 7251093695829150 (by norm_num) (by norm_num) (by norm_num)
      (by norm_num) (by norm_num)).trans (by norm_num)
  unfold dashoffset fsub fmul fdiv
  rw [circumference_eq, h1, h2, h3]

lemma dashoffset_at_50 : dashoffset (50) = 4531933559893219 / 2 ^ 45 := by
  have h1 : roundDouble ((50 : ℚ) / 100) = 1 / 2 ^ 1 :=
    (roundDouble_eval _ (-53) 4503599627370496 (by norm_num) (by norm_num) (by norm_num)
      (by norm_num) (by norm_num)).trans (by norm_num)
  have h2 : roundDouble ((1 / 2 ^ 1 : ℚ) * (4531933559893219 / 2 ^ 44)) = 4531933559893219 / 2 ^ 45 :=
    (roundDouble_eval _ (-45) 4531933559893219 (by norm_num) (by norm_num) (by norm_num)
      (by norm_num) (by norm_num)).trans (by norm_num)
  have h3 : roundDouble ((4531933559893219 / 2 ^ 44 : ℚ) - 4531933559893219 / 2 ^ 45) = 4531933559893219 / 2 ^ 45 :=
    (roundDouble_eval _ (-45) 4531933559893219 (by norm_num) (by norm_num) (by norm_num)
      (by norm_num) (by norm_num)).trans (by norm_num)
  unfold dashoffset fsub fmul fdiv
  rw [circumference_eq, h1, h2, h3]

lemma dashoffset_at_30 : dashoffset (30) = 3172353491925253 / 2 ^ 44 := by
  have h1 : roundDouble ((30 : ℚ) / 100) = 5404319552844595 / 2 ^ 54 :=
    (roundDouble_eval _ (-54) 5404319552844595 (by norm_num) (by norm_num) (by norm_num)
      (by norm_num) (by norm_num)).trans (by norm_num)
  have h2 : roundDouble ((5404319552844595 / 2 ^ 54 : ℚ) * (4531933559893219 / 2 ^ 44)) = 5438320271871863 / 2 ^ 46 :=
    (roundDouble_eval _ (-46) 5438320271871863 (by norm_num) (by norm_num) (by norm_num)
      (by norm_num) (by norm_num)).trans (by norm_num)
  have h3 : roundDouble ((4531933559893219 / 2 ^ 44 : ℚ) - 5438320271871863 / 2 ^ 46) = 3172353491925253 / 2 ^ 44 :=
    (roundDouble_eval_even _ (-45) 6344706983850506 (by norm_num) (by norm_num) (by norm_num)
      (by norm_num) (by norm_num) (by norm_num)).trans (by norm_num)
  unfold dashoffset fsub fmul fdiv
  rw [circumference_eq, h1, h2, h3]

lemma dashoffset_at_75 : dashoffset (75) = 1132983389973305 / 2 ^ 44 := by
  have h1 : roundDouble ((75 : ℚ) / 100) = 3 / 2 ^ 2 :=
    (roundDouble_eval _ (-53) 6755399441055744 (by norm_num) (by norm_num) (by norm_num)
      (by norm_num) (by norm_num)).trans (by norm_num)
  have h2 : roundDouble ((3 / 2 ^ 2 : ℚ) * (4531933559893219 / 2 ^ 44)) = 1699475084959957 / 2 ^ 43 :=
    (roundDouble_eval_even _ (-45) 6797900339839828 (by norm_num) (by norm_num) (by norm_num)
      (by norm_num) (by norm_num) (by norm_num)).trans (by norm_num)
  have h3 : roundDouble ((4531933559893219 / 2 ^ 44 : ℚ) - 1699475084959957 / 2 ^ 43) = 1132983389973305 / 2 ^ 44 :=
    (roundDouble_eval _ (-46) 4531933559893220 (by norm_num) (by norm_num) (by norm_num)
      (by norm_num) (by norm_num)).trans (by norm_num)
  unfold dashoffset fsub fmul fdiv
  rw [circumference_eq, h1, h2, h3]

lemma dashoffset_at_40 : dashoffset (40) = 2719160135935931 / 2 ^ 44 := by
  have h1 : roundDouble ((40 : ℚ) / 100) = 3602879701896397 / 2 ^ 53 :=
    (roundDouble_eval _ (-54) 7205759403792794 (by norm_num) (by norm_num) (by norm_num)
      (by norm_num) (by norm_num)).trans (by norm_num)
  have h2 : roundDouble ((3602879701896397 / 2 ^ 53 : ℚ) * (4531933559893219 / 2 ^ 44)) = 7251093695829151 / 2 ^ 46 :=
    (roundDouble_eval _ (-46) 7251093695829151 (by norm_num) (by norm_num) (by norm_num)
      (by norm_num) (by norm_num)).trans (by norm_num)
  have h3 : roundDouble ((4531933559893219 / 2 ^ 44 : ℚ) - 7251093695829151 / 2 ^ 46) = 2719160135935931 / 2 ^ 44 :=
    (roundDouble_eval_even _ (-45) 5438320271871862 (by norm_num) (by norm_num) (by norm_num)
      (by norm_num) (by norm_num) (by norm_num)).trans (by norm_num)
  unfold dashoffset fsub fmul fdiv
  rw [circumference_eq, h1, h2, h3]

lemma dashoffset_at_half : dashoffset (1 / 2) = 4509273892093753 / 2 ^ 44 := by
  have h1 : roundDouble ((1 / 2 : ℚ) / 100) = 5764607523034235 / 2 ^ 60 :=
    (roundDouble_eval _ (-60) 5764607523034235 (by norm_num) (by norm_num) (by norm_num)
      (by norm_num) (by norm_num)).trans (by norm_num)
  have h2 : roundDouble ((5764607523034235 / 2 ^ 60 : ℚ) * (4531933559893219 / 2 ^ 44)) = 725109369582915 / 2 ^ 49 :=
    (roundDouble_eval _ (-52) 5800874956663320 (by norm_num) (by norm_num) (by norm_num)
      (by norm_num) (by norm_num)).trans (by norm_num)
  have h3 : roundDouble ((4531933559893219 / 2 ^ 44 : ℚ) - 725109369582915 / 2 ^ 49) = 4509273892093753 / 2 ^ 44 :=
    (roundDouble_eval _ (-44) 4509273892093753 (by norm_num) (by norm_num) (by norm_num)
      (by norm_num) (by norm_num)).trans (by norm_num)
  unfold dashoffset fsub fmul fdiv
  rw [circumference_eq, h1, h2, h3]

lemma dashoffset_below_half : dashoffset (1 / 2 - 1 / 2 ^ 54) = 4509273892093753 / 2 ^ 44 := by
  have h1 : roundDouble ((1 / 2 - 1 / 2 ^ 54 : ℚ) / 100) = 2882303761517117 / 2 ^ 59 :=
    (roundDouble_eval _ (-60) 5764607523034234 (by norm_num) (by norm_num) (by norm_num)
      (by norm_num) (by norm_num)).trans (by norm_num)
  have h2 : roundDouble ((2882303761517117 / 2 ^ 59 : ℚ) * (4531933559893219 / 2 ^ 44)) = 5800874956663319 / 2 ^ 52 :=
    (roundDouble_eval _ (-52) 5800874956663319 (by norm_num) (by norm_num) (by norm_num)
      (by norm_num) (by norm_num)).trans (by norm_num)
  have h3 : roundDouble ((4531933559893219 / 2 ^ 44 : ℚ) - 5800874956663319 / 2 ^ 52) = 4509273892093753 / 2 ^ 44 :=
    (roundDouble_eval _ (-44) 4509273892093753 (by norm_num) (by norm_num) (by norm_num)
      (by norm_num) (by norm_num)).trans (by norm_num)
  unfold dashoffset fsub fmul fdiv
  rw [circumference_eq, h1, h2, h3]

lemma roundDouble_one : roundDouble 1 = 1 :=
  (roundDouble_eval _ (-52) 4503599627370496 (by norm_num) (by norm_num) (by norm_num)
      (by norm_num) (by norm_num)).trans (by norm_num)

lemma circumference_nonneg : 0 ≤ circumference := by
  rw [circumference_eq]
  norm_num

lemma circumference_claim_order :
    fmul (fmul 2 PI) (fsub 45 (fdiv 8 2)) = circumference := by
  have h1 : roundDouble ((8 : ℚ) / 2) = 4 :=
    (roundDouble_eval _ (-50) 4503599627370496 (by norm_num) (by norm_num) (by norm_num)
      (by norm_num) (by norm_num)).trans (by norm_num)
  have h2 : roundDouble ((45 : ℚ) - 4) = 41 :=
    (roundDouble_eval _ (-47) 5770237022568448 (by norm_num) (by norm_num) (by norm_num)
      (by norm_num) (by norm_num)).trans (by norm_num)
  have h3 : roundDouble ((2 : ℚ) * (884279719003555 / 2 ^ 48)) = 884279719003555 / 2 ^ 47 :=
    (roundDouble_eval _ (-50) 7074237752028440 (by norm_num) (by norm_num) (by norm_num)
      (by norm_num) (by norm_num)).trans (by norm_num)
  have h4 : roundDouble ((884279719003555 / 2 ^ 47 : ℚ) * 41) = 4531933559893219 / 2 ^ 44 :=
    (roundDouble_eval _ (-44) 4531933559893219 (by norm_num) (by norm_num) (by norm_num)
      (by norm_num) (by norm_num)).trans (by norm_num)
  rw [circumference_eq]
  unfold fmul fsub fdiv PI
  rw [h1, h2, h3, h4]

lemma dashoffset_zero : dashoffset 0 = circumference := by
  unfold dashoffset fsub fmul fdiv
  rw [zero_div, roundDouble_zero, zero_mul, roundDouble_zero, sub_zero, circumference_eq]
  exact roundDouble_circumference

lemma dashoffset_hundred : dashoffset 100 = 0 := by
  unfold dashoffset fsub fmul fdiv
  rw [div_self (by norm_num), roundDouble_one, one_mul, circumference_eq,
    roundDouble_circumference, sub_self, roundDouble_zero]

lemma dashoffset_antitone {a b : ℚ} (h : a ≤ b) : dashoffset b ≤ dashoffset a := by
  unfold dashoffset fsub fmul fdiv
  apply roundDouble_mono
  have h1 : roundDouble (a / 100) ≤ roundDouble (b / 100) :=
    roundDouble_mono (div_le_div_of_nonneg_right h (by norm_num))
  have h2 : roundDouble (roundDouble (a / 100) * circumference)
      ≤ roundDouble (roundDouble (b / 100) * circumference) :=
    roundDouble_mono (mul_le_mul_of_nonneg_right h1 circumference_nonneg)
  linarith

lemma fraction_at_60 :
    fsub 1 (fdiv (dashoffset 60) circumference) = 1351079888211149 / 2 ^ 51 := by
  have h1 : roundDouble ((3625546847914575 / 2 ^ 45 : ℚ) / (4531933559893219 / 2 ^ 44)) = 7205759403792793 / 2 ^ 54 :=
    (roundDouble_eval _ (-54) 7205759403792793 (by norm_num) (by norm_num) (by norm_num)
      (by norm_num) (by norm_num)).trans (by norm_num)
  have h2 : roundDouble ((1 : ℚ) - 7205759403792793 / 2 ^ 54) = 1351079888211149 / 2 ^ 51 :=
    (roundDouble_eval_even _ (-53) 5404319552844596 (by norm_num) (by norm_num) (by norm_num)
      (by norm_num) (by norm_num) (by norm_num)).trans (by norm_num)
  unfold fsub fdiv
  rw [dashoffset_at_60, circumference_eq, h1, h2]

lemma fdiv_60_100 : fdiv 60 100 = 5404319552844595 / 2 ^ 53 :=
  (roundDouble_eval _ (-53) 5404319552844595 (by norm_num) (by norm_num) (by norm_num)
      (by norm_num) (by norm_num)).trans (by norm_num)

lemma fraction_near_80 :
    |1 - dashoffset 80 / circumference - 80 / 100| ≤ 1 / 10 ^ 16 := by
  rw [dashoffset_at_80, circumference_eq, abs_le]
  constructor <;> norm_num

lemma fraction_near_90 :
    |1 - dashoffset 90 / circumference - 90 / 100| ≤ 1 / 10 ^ 16 := by
  rw [dashoffset_at_90, circumference_eq, abs_le]
  constructor <;> norm_num

lemma fraction_near_85 :
    |1 - dashoffset 85 / circumference - 85 / 100| ≤ 1 / 10 ^ 16 := by
  rw [dashoffset_at_85, circumference_eq, abs_le]
  constructor <;> norm_num

lemma fraction_near_60 :
    |1 - dashoffset 60 / circumference - 60 / 100| ≤ 1 / 10 ^ 16 := by
  rw [dashoffset_at_60, circumference_eq, abs_le]
  constructor <;> norm_num

lemma fraction_near_50 :
    |1 - dashoffset 50 / circumference - 50 / 100| ≤ 1 / 10 ^ 16 := by
  rw [dashoffset_at_50, circumference_eq, abs_le]
  constructor <;> norm_num

lemma fraction_near_30 :
    |1 - dashoffset 30 / circumference - 30 / 100| ≤ 1 / 10 ^ 16 := by
  rw [dashoffset_at_30, circumference_eq, abs_le]
  constructor <;> norm_num

lemma fraction_near_75 :
    |1 - dashoffset 75 / circumference - 75 / 100| ≤ 1 / 10 ^ 16 := by
  rw [dashoffset_at_75, circumference_eq, abs_le]
  constructor <;> norm_num

lemma fraction_near_40 :
    |1 - dashoffset 40 / circumference - 40 / 100| ≤ 1 / 10 ^ 16 := by
  rw [dashoffset_at_40, circumference_eq, abs_le]
  constructor <;> norm_num

end Binary64

/-! ## Theorems -/

/-- C1: for every project array and every filter value, the displayed list is the array itself
when the filter is 'All'; otherwise it is a sublist of the array (same relative order) whose
members are exactly the projects of that category, each as often as in the array. On the shipped
`projectsData` the filter 'Development' shows both entries, each tagged 'Development'. -/
theorem filteredProjects_spec (data : List Project) (f : String) :
    (f = "All" → filteredProjects data f = data) ∧
    (f ≠ "All" →
      (∀ p ∈ filteredProjects data f, p.category = f) ∧
      (∀ p ∈ data, p.category = f → p ∈ filteredProjects data f) ∧
      (∀ p, p ∈ filteredProjects data f ↔ p ∈ data ∧ p.category = f) ∧
      (∀ p, p.category = f → (filteredProjects data f).count p = data.count p) ∧
      List.Sublist (filteredProjects data f) data) ∧
    filteredProjects projectsData "Development" = projectsData ∧
    (∀ p ∈ filteredProjects projectsData "Development", p.category = "Development") := by
  refine ⟨fun h => by simp [filteredProjects, h], fun h => ?_, by decide, by decide⟩
  simp only [filteredProjects, if_neg h]
  refine ⟨?_, ?_, ?_, ?_, List.filter_sublist _⟩
  · intro p hp
    simpa using (List.mem_filter.mp hp).2
  · intro p hp hc
    exact List.mem_filter.mpr ⟨hp, by simpa using hc⟩
  · intro p
    simp [List.mem_filter]
  · intro p hc
    rw [List.count_filter]
    simpa using hc

/-- Witness of C1: on the shipped array followed by a 'Design' entry, the filter 'Design'
shows that entry alone. -/
theorem filteredProjects_spec_witness :
    filteredProjects (projectsData ++ [⟨3, "Brand Identity System", "Design", "", ["Figma"],
      "/project-three.jpg", "#", ""⟩]) "Design"
      = [⟨3, "Brand Identity System", "Design", "", ["Figma"], "/project-three.jpg", "#", ""⟩] ∧
    ∀ p ∈ filteredProjects (projectsData ++ [⟨3, "Brand Identity System", "Design", "", ["Figma"],
      "/project-three.jpg", "#", ""⟩]) "Design", p.category = "Design" :=
  ⟨by decide, ((filteredProjects_spec _ "Design").2.1 (by decide)).1⟩

/-- C2: a click on the theme toggle flips the theme flag: in every state whose theme is one of
the two values 'light' and 'dark', the state after the click holds the other value (light to
dark, dark to light), which is never the value before the click, and a second click brings the
theme, and the whole state, back; the updater `toggleTheme` itself maps each value to the
other, has no fixed point on them and is its own inverse. -/
theorem toggleTheme_flips (s : AppState) (t : String) (hs : s.theme = some t)
    (ht : t = "light" ∨ t = "dark") :
    (step s .toggleClick).theme = toggleTheme (some t) ∧
    (t = "light" → (step s .toggleClick).theme = some "dark") ∧
    (t = "dark" → (step s .toggleClick).theme = some "light") ∧
    (step s .toggleClick).theme ≠ s.theme ∧
    (step (step s .toggleClick) .toggleClick).theme = s.theme ∧
    step (step s .toggleClick) .toggleClick = s ∧
    run s [.toggleClick, .toggleClick] = s ∧
    toggleTheme (some "light") = some "dark" ∧
    toggleTheme (some "dark") = some "light" ∧
    toggleTheme (some t) ≠ some t ∧
    toggleTheme (toggleTheme (some t)) = some t := by
  obtain ⟨theme, isLoaded, isMenuOpen⟩ := s
  simp only at hs
  subst hs
  rcases ht with rfl | rfl
  · have hne : toggleTheme (some "light") ≠ some "light" := by decide
    exact ⟨rfl, fun _ => rfl, fun h => absurd h (by decide), hne, rfl, rfl, rfl,
      by decide, by decide, by decide, by decide⟩
  · have hne : toggleTheme (some "dark") ≠ some "dark" := by decide
    exact ⟨rfl, fun h => absurd h (by decide), fun _ => rfl, hne, rfl, rfl, rfl,
      by decide, by decide, by decide, by decide⟩

/-- Witness of C2: a click in a dark state with the menu open and the page loaded. -/
theorem toggleTheme_flips_witness :
    (step ⟨some "dark", true, true⟩ .toggleClick).theme = some "light" ∧
    (step ⟨some "dark", true, true⟩ .toggleClick).theme ≠ some "dark" ∧
    (step (step ⟨some "dark", true, true⟩ .toggleClick) .toggleClick).theme = some "dark" :=
  ⟨(toggleTheme_flips ⟨some "dark", true, true⟩ "dark" rfl (Or.inr rfl)).2.2.1 rfl,
   (toggleTheme_flips ⟨some "dark", true, true⟩ "dark" rfl (Or.inr rfl)).2.2.2.1,
   (toggleTheme_flips ⟨some "dark", true, true⟩ "dark" rfl (Or.inr rfl)).2.2.2.2.1⟩

/-- C3: for every hour from 0 to 23 the load-time effect sets the theme to 'dark' exactly when
the hour is at least 18 or below 6, to 'light' exactly when it is from 6 to 17, and to nothing
else. -/
theorem loadTheme_spec (s : AppState) (h : Nat) (hh : h ≤ 23) :
    ((step s (.loadTheme h)).theme = some "dark" ↔ (h ≥ 18 ∨ h < 6)) ∧
    ((step s (.loadTheme h)).theme = some "light" ↔ (6 ≤ h ∧ h ≤ 17)) ∧
    ((step s (.loadTheme h)).theme = some "light" ∨ (step s (.loadTheme h)).theme = some "dark") := by
  show (some (themeForHour h) = some "dark" ↔ _) ∧ (some (themeForHour h) = some "light" ↔ _) ∧
    (some (themeForHour h) = some "light" ∨ some (themeForHour h) = some "dark")
  by_cases hc : h ≥ 18 ∨ h < 6
  · have e : themeForHour h = "dark" := if_pos hc
    rw [e]
    refine ⟨⟨fun _ => hc, fun _ => rfl⟩, ⟨fun h1 => absurd h1 (by decide), fun h2 => ?_⟩, Or.inr rfl⟩
    omega
  · have e : themeForHour h = "light" := if_neg hc
    rw [e]
    refine ⟨⟨fun h1 => absurd h1 (by decide), fun h2 => absurd h2 hc⟩, ⟨fun _ => ?_, fun _ => rfl⟩,
      Or.inl rfl⟩
    omega

/-- Witness of C3 at the hours 19 and 9. -/
theorem loadTheme_spec_witness :
    (step AppState.initial (.loadTheme 19)).theme = some "dark" ∧
    (step AppState.initial (.loadTheme 9)).theme = some "light" :=
  ⟨(loadTheme_spec AppState.initial 19 (by decide)).1.mpr (Or.inl (by decide)),
   (loadTheme_spec AppState.initial 9 (by decide)).2.1.mpr ⟨by decide, by decide⟩⟩

/-- C4: for every skill of `skillsData`, when `onUpdate` receives `latest = skill.level` the
displayed number becomes `skill.level` itself, because the level is an integer, on which
`Math.round` is the identity; the level lies between 0 and 100. -/
theorem skill_display_ends_at_level (c : SkillCategory) (hc : c ∈ skillsData)
    (skill : Skill) (hs : skill ∈ c.skills) (v : ChartView ℝ) :
    (((onUpdate Real.pi (skill.level : ℝ) v).animatedLevel : ℤ) : ℝ) = (skill.level : ℝ) ∧
    (∃ n : ℤ, skill.level = n ∧ mathRound (skill.level : ℝ) = n) ∧
    0 ≤ skill.level ∧ skill.level ≤ 100 := by
  have key : ∀ n : ℤ, skill.level = n → 0 ≤ n → n ≤ 100 →
      (((onUpdate Real.pi (skill.level : ℝ) v).animatedLevel : ℤ) : ℝ) = (skill.level : ℝ) ∧
      (∃ n : ℤ, skill.level = n ∧ mathRound (skill.level : ℝ) = n) ∧
      0 ≤ skill.level ∧ skill.level ≤ 100 := by
    intro n hn h0 h100
    have hr : mathRound (skill.level : ℝ) = n := by
      rw [hn]
      exact_mod_cast mathRound_intCast (α := ℝ) n
    refine ⟨?_, ⟨n, hn, hr⟩, ?_, ?_⟩
    · show ((mathRound (skill.level : ℝ) : ℤ) : ℝ) = _
      rw [hr, hn]
      norm_cast
    · rw [hn]; exact_mod_cast h0
    · rw [hn]; exact_mod_cast h100
  simp only [skillsData, List.mem_cons, List.mem_singleton, List.not_mem_nil, or_false] at hc
  rcases hc with rfl | rfl | rfl <;>
    simp only [List.mem_cons, List.mem_singleton, List.not_mem_nil, or_false] at hs <;>
    rcases hs with rfl | rfl | rfl
  · exact key 80 (by norm_num) (by norm_num) (by norm_num)
  · exact key 90 (by norm_num) (by norm_num) (by norm_num)
  · exact key 85 (by norm_num) (by norm_num) (by norm_num)
  · exact key 60 (by norm_num) (by norm_num) (by norm_num)
  · exact key 50 (by norm_num) (by norm_num) (by norm_num)
  · exact key 30 (by norm_num) (by norm_num) (by norm_num)
  · exact key 75 (by norm_num) (by norm_num) (by norm_num)
  · exact key 40 (by norm_num) (by norm_num) (by norm_num)
  · exact key 85 (by norm_num) (by norm_num) (by norm_num)

/-- Witness of C4 at the skill 'WebGL / Shaders' (level 30) of 'Creative Technology'. -/
theorem skill_display_ends_at_level_witness :
    (((onUpdate Real.pi (((30 : ℚ)) : ℝ) (ChartView.initial Real.pi)).animatedLevel : ℤ) : ℝ)
      = ((30 : ℚ) : ℝ) :=
  (skill_display_ends_at_level
    { category := "Creative Technology",
      skills := [ { name := "Three.js / R3F", level := 60 }, { name := "Framer Motion", level := 50 },
                  { name := "WebGL / Shaders", level := 30 } ] }
    (by simp [skillsData])
    { name := "WebGL / Shaders", level := 30 } (by simp)
    (ChartView.initial Real.pi)).1

/-- C5, as stated, fails: the initial state of `App` (reached by the empty sequence of writes,
and the state in which the effects of the first render run) has the theme `null`, which is
neither 'light' nor 'dark'. -/
theorem theme_unset_in_initial_state :
    (run AppState.initial []).theme = none ∧
    ¬ (∀ events : List Event,
        (run AppState.initial events).theme = some "light" ∨
        (run AppState.initial events).theme = some "dark") := by
  refine ⟨rfl, fun h => ?_⟩
  rcases h [] with h | h <;> exact absurd h (by decide)

/-- C5, amended: in every state reachable from the initial state by the load-time
initialisation, theme toggles, menu operations and the loaded timer, the theme flag is `null`,
'light' or 'dark'; once the load-time initialisation has run it is 'light' or 'dark', and from a
state whose theme is 'light' or 'dark' every sequence of writes leads to such a state. -/
theorem theme_flag_valid (events : List Event) :
    ((run AppState.initial events).theme = none ∨
      (run AppState.initial events).theme = some "light" ∨
      (run AppState.initial events).theme = some "dark") ∧
    ((∃ hour, Event.loadTheme hour ∈ events) →
      (run AppState.initial events).theme = some "light" ∨
      (run AppState.initial events).theme = some "dark") ∧
    (∀ s : AppState, (s.theme = some "light" ∨ s.theme = some "dark") →
      (run s events).theme = some "light" ∨ (run s events).theme = some "dark") := by
  refine ⟨run_theme_cases events _ (Or.inl rfl), ?_, fun s hs => run_theme_valid events s hs⟩
  rintro ⟨hour, hmem⟩
  obtain ⟨pre, post, rfl⟩ := List.append_of_mem hmem
  rw [run_append]
  exact run_theme_valid post (step (run AppState.initial pre) (.loadTheme hour))
    (step_loadTheme_valid _ hour)

/-- Witness of C5 (amended): the initialisation at 21 h, a toggle, the timer and a menu click. -/
theorem theme_flag_valid_witness :
    (run AppState.initial [.loadTheme 21, .toggleClick, .loadedTimer, .menuButtonClick]).theme
        = some "light" ∨
    (run AppState.initial [.loadTheme 21, .toggleClick, .loadedTimer, .menuButtonClick]).theme
        = some "dark" :=
  (theme_flag_valid [.loadTheme 21, .toggleClick, .loadedTimer, .menuButtonClick]).2.1
    ⟨21, by decide⟩

/-- C6: when the sync effect runs in a state whose theme is 'light' or 'dark', the root's
`data-theme` attribute afterwards equals the theme, whatever the document was before; when the
theme is `null` the effect leaves the root's attributes as they were. -/
theorem syncEffect_mirrors_theme (s : AppState) (d : Document) :
    ((s.theme = some "light" ∨ s.theme = some "dark") →
      getAttribute (syncEffect s d).rootAttributes "data-theme" = s.theme) ∧
    (s.theme = none →
      (syncEffect s d).rootAttributes = d.rootAttributes ∧
      getAttribute (syncEffect s d).rootAttributes "data-theme"
        = getAttribute d.rootAttributes "data-theme") := by
  constructor
  · intro h
    rcases h with h | h <;>
    · simp only [syncEffect, h]
      rw [if_pos (by decide)]
      exact getAttribute_setAttribute _ _ _
  · intro h
    simp only [syncEffect, h, and_self]

/-- Witness of C6: a root that carries `data-theme="light"` carries `data-theme="dark"` after
the effect has run in a dark state, and keeps its attributes when the theme is `null`. -/
theorem syncEffect_mirrors_theme_witness :
    getAttribute (syncEffect ⟨some "dark", true, false⟩
        ⟨[("lang", "en"), ("data-theme", "light")], ["no-scroll"]⟩).rootAttributes "data-theme"
      = some "dark" ∧
    (syncEffect AppState.initial ⟨[("lang", "en")], []⟩).rootAttributes = [("lang", "en")] :=
  ⟨(syncEffect_mirrors_theme ⟨some "dark", true, false⟩
      ⟨[("lang", "en"), ("data-theme", "light")], ["no-scroll"]⟩).1 (Or.inr rfl),
   ((syncEffect_mirrors_theme AppState.initial ⟨[("lang", "en")], []⟩).2 rfl).1⟩

/-- C7: each write changes its own flag only: the theme toggle keeps `isLoaded` and
`isMenuOpen`; the menu button and a menu link keep `theme` and `isLoaded`; the loaded timer
keeps `theme` and `isMenuOpen`. -/
theorem step_frame (s : AppState) :
    ((step s .toggleClick).isLoaded = s.isLoaded ∧
      (step s .toggleClick).isMenuOpen = s.isMenuOpen) ∧
    ((step s .menuButtonClick).theme = s.theme ∧
      (step s .menuButtonClick).isLoaded = s.isLoaded) ∧
    ((step s .menuLinkClick).theme = s.theme ∧
      (step s .menuLinkClick).isLoaded = s.isLoaded) ∧
    ((step s .loadedTimer).theme = s.theme ∧
      (step s .loadedTimer).isMenuOpen = s.isMenuOpen) :=
  ⟨⟨rfl, rfl⟩, ⟨rfl, rfl⟩, ⟨rfl, rfl⟩, ⟨rfl, rfl⟩⟩

/-- C8: `isLoaded` is false in the initial state; every write other than the deferred timer
keeps it, and the timer sets it to true; after the timer it is true in every reachable state,
so from the initial state it is true exactly when the timer has fired; whenever `App` renders
its root element, the root's class list contains 'loaded' exactly when the flag is true. -/
theorem isLoaded_flips_once (s : AppState) (events : List Event) :
    AppState.initial.isLoaded = false ∧
    (∀ e : Event, e ≠ .loadedTimer → (step s e).isLoaded = s.isLoaded) ∧
    (step s .loadedTimer).isLoaded = true ∧
    (run (step s .loadedTimer) events).isLoaded = true ∧
    ((run AppState.initial events).isLoaded = true ↔ Event.loadedTimer ∈ events) ∧
    ("loaded" ∈ classList (appClassName s.isLoaded) ↔ s.isLoaded = true) ∧
    (∀ cls, rootClassName s = some cls → ("loaded" ∈ classList cls ↔ s.isLoaded = true)) := by
  have hcls : "loaded" ∈ classList (appClassName s.isLoaded) ↔ s.isLoaded = true := by
    cases s.isLoaded <;> decide
  refine ⟨rfl, ?_, rfl, run_isLoaded_of_true events _ rfl, ?_, hcls, ?_⟩
  · intro e he
    cases e <;> first | rfl | exact absurd rfl he
  · exact run_isLoaded_iff events AppState.initial rfl
  · intro cls h
    unfold rootClassName at h
    split at h
    · exact absurd h (by simp)
    · cases Option.some.inj h
      exact hcls

/-- Witness of C8: the timer between two clicks. -/
theorem isLoaded_flips_once_witness :
    (run AppState.initial [.loadTheme 7, .menuButtonClick, .loadedTimer, .toggleClick]).isLoaded
      = true :=
  (isLoaded_flips_once AppState.initial
    [.loadTheme 7, .menuButtonClick, .loadedTimer, .toggleClick]).2.2.2.2.1.mpr (by decide)

/-- C9, as stated, fails in the arithmetic of the code: the two doubles `0.49999999999999994`
and `0.5` give the same stroke offset, so the offset is not strictly decreasing in `latest`;
and at the level 60 of the skill 'Three.js / R3F' the drawn fraction `1 - offset / C` is not
`60 / 100`, neither as an exact quotient nor computed in doubles (`0.6000000000000001`). -/
theorem dashoffset_not_strict_nor_exact :
    ((1 : ℚ) / 2 - 1 / 2 ^ 54 < 1 / 2 ∧
      Binary64.dashoffset (1 / 2 - 1 / 2 ^ 54) = Binary64.dashoffset (1 / 2)) ∧
    ¬ (∀ a b : ℚ, a < b → Binary64.dashoffset b < Binary64.dashoffset a) ∧
    (∃ c ∈ skillsData, ∃ skill ∈ c.skills, skill.level = 60 ∧
      1 - Binary64.dashoffset skill.level / Binary64.circumference ≠ skill.level / 100 ∧
      Binary64.fsub 1 (Binary64.fdiv (Binary64.dashoffset skill.level) Binary64.circumference)
        ≠ Binary64.fdiv skill.level 100) := by
  have hlt : (1 : ℚ) / 2 - 1 / 2 ^ 54 < 1 / 2 := by norm_num
  have heq : Binary64.dashoffset (1 / 2 - 1 / 2 ^ 54) = Binary64.dashoffset (1 / 2) := by
    rw [Binary64.dashoffset_below_half, Binary64.dashoffset_at_half]
  refine ⟨⟨hlt, heq⟩, fun h => ?_, ?_⟩
  · have := h _ _ hlt
    rw [heq] at this
    exact lt_irrefl _ this
  · refine ⟨_, List.mem_cons_of_mem _ (List.mem_cons_self _ _),
      ⟨"Three.js / R3F", 60⟩, List.mem_cons_self _ _, rfl, ?_, ?_⟩
    · show 1 - Binary64.dashoffset 60 / Binary64.circumference ≠ 60 / 100
      rw [Binary64.dashoffset_at_60, Binary64.circumference_eq]
      norm_num
    · show Binary64.fsub 1 (Binary64.fdiv (Binary64.dashoffset 60) Binary64.circumference)
        ≠ Binary64.fdiv 60 100
      rw [Binary64.fraction_at_60, Binary64.fdiv_60_100]
      norm_num

/-- C9, amended: with `C` the circumference, the double that `2 * pi * (45 - 8 / 2)` and
`normalizedRadius * 2 * Math.PI` both evaluate to, `onUpdate` sets the stroke offset of an
attached circle to `C - (latest / 100) * C` computed in doubles; at `latest = 0` this is `C`,
the offset the circle is first rendered with, and at `latest = 100` it is 0; at
`latest = skill.level`, for every skill of `skillsData`, the drawn fraction `1 - offset / C`
equals `skill.level / 100` up to a rounding error of at most `10 ^ (-16)`; the offset is
non-increasing in `latest`, and for `0 ≤ latest ≤ 100` it lies in `[0, C]`. -/
theorem dashoffset_binary64_spec (latest : ℚ) :
    Binary64.circumference
      = Binary64.fmul (Binary64.fmul 2 Binary64.PI) (Binary64.fsub 45 (Binary64.fdiv 8 2)) ∧
    Binary64.circumference = 4531933559893219 / 2 ^ 44 ∧
    (∀ (v : ChartView ℚ) (old : ℚ), v.strokeDashoffset = some old →
      (Binary64.onUpdate latest v).strokeDashoffset
        = some (Binary64.fsub Binary64.circumference
            (Binary64.fmul (Binary64.fdiv latest 100) Binary64.circumference))) ∧
    (Binary64.onUpdate latest Binary64.initialView).strokeDashoffset
      = some (Binary64.dashoffset latest) ∧
    Binary64.initialView.strokeDashoffset = some Binary64.circumference ∧
    Binary64.dashoffset 0 = Binary64.circumference ∧
    Binary64.dashoffset 100 = 0 ∧
    (∀ c ∈ skillsData, ∀ skill ∈ c.skills,
      |1 - Binary64.dashoffset skill.level / Binary64.circumference - skill.level / 100|
        ≤ 1 / 10 ^ 16) ∧
    (∀ a b : ℚ, a ≤ b → Binary64.dashoffset b ≤ Binary64.dashoffset a) ∧
    (0 ≤ latest → latest ≤ 100 →
      0 ≤ Binary64.dashoffset latest ∧ Binary64.dashoffset latest ≤ Binary64.circumference) := by
  refine ⟨Binary64.circumference_claim_order.symm, Binary64.circumference_eq, ?_, rfl, rfl,
    Binary64.dashoffset_zero, Binary64.dashoffset_hundred, ?_,
    fun a b h => Binary64.dashoffset_antitone h, ?_⟩
  · intro v old hv
    simp [Binary64.onUpdate, hv, Binary64.dashoffset]
  · intro c hc skill hs
    simp only [skillsData, List.mem_cons, List.mem_singleton, List.not_mem_nil, or_false] at hc
    rcases hc with rfl | rfl | rfl <;>
      simp only [List.mem_cons, List.mem_singleton, List.not_mem_nil, or_false] at hs <;>
      rcases hs with rfl | rfl | rfl
    · exact Binary64.fraction_near_80
    · exact Binary64.fraction_near_90
    · exact Binary64.fraction_near_85
    · exact Binary64.fraction_near_60
    · exact Binary64.fraction_near_50
    · exact Binary64.fraction_near_30
    · exact Binary64.fraction_near_75
    · exact Binary64.fraction_near_40
    · exact Binary64.fraction_near_85
  · intro h0 h100
    constructor
    · rw [← Binary64.dashoffset_hundred]
      exact Binary64.dashoffset_antitone h100
    · rw [← Binary64.dashoffset_zero]
      exact Binary64.dashoffset_antitone h0

/-- Witness of C9 (amended) at `latest = 60`, the level of 'Three.js / R3F': the offset is
`103.0442390377452`, between 0 and `C`. -/
theorem dashoffset_binary64_spec_witness :
    0 ≤ Binary64.dashoffset 60 ∧ Binary64.dashoffset 60 ≤ Binary64.circumference :=
  (dashoffset_binary64_spec 60).2.2.2.2.2.2.2.2.2 (by norm_num) (by norm_num)

/-- C10: with `t1` and `t2` the two readings of the clock in one frame (the same `t` when the
clock does not tick in between), on desktop the scale of every axis is
`0.125 * (1 + 0.005 * sin (0.0008 * t1))`, within `[0.124375, 0.125625]`, and the position is
`(3.15, 0.05 * sin (0.0005 * t2) - 3.25, 0)` with the second coordinate within `[-3.30, -3.20]`;
on mobile the position is `(0, 0.05 * sin (0.0005 * t2) - 2.5, 0)` with the second coordinate
within `[-2.55, -2.45]`; on both, the three axes get the same scale. -/
theorem frameCallback_spec (t1 t2 : ℝ) (model : Object3D ℝ) :
    (∃ m, frameCallback Real.sin Real.pi false t1 t2 (some model) = some m ∧
      m.scale.x = 0.125 * (1 + 0.005 * Real.sin (0.0008 * t1)) ∧
      m.scale.y = m.scale.x ∧ m.scale.z = m.scale.x ∧
      0.124375 ≤ m.scale.x ∧ m.scale.x ≤ 0.125625 ∧
      m.position.x = 3.15 ∧
      m.position.y = 0.05 * Real.sin (0.0005 * t2) - 3.25 ∧
      -3.30 ≤ m.position.y ∧ m.position.y ≤ -3.20 ∧
      m.position.z = 0) ∧
    (∃ m, frameCallback Real.sin Real.pi true t1 t2 (some model) = some m ∧
      m.scale.y = m.scale.x ∧ m.scale.z = m.scale.x ∧
      m.position.x = 0 ∧
      m.position.y = 0.05 * Real.sin (0.0005 * t2) - 2.5 ∧
      -2.55 ≤ m.position.y ∧ m.position.y ≤ -2.45 ∧
      m.position.z = 0) := by
  have h1 := Real.sin_le_one (t1 * 0.0008)
  have h2 := Real.neg_one_le_sin (t1 * 0.0008)
  have h3 := Real.sin_le_one (t2 * 0.0005)
  have h4 := Real.neg_one_le_sin (t2 * 0.0005)
  have e1 : (0.0008 : ℝ) * t1 = t1 * 0.0008 := mul_comm _ _
  have e2 : (0.0005 : ℝ) * t2 = t2 * 0.0005 := mul_comm _ _
  constructor
  · refine ⟨_, rfl, ?_, rfl, rfl, ?_, ?_, ?_, ?_, ?_, ?_, rfl⟩
    · simp only [Bool.false_eq_true, if_false, e1]; ring
    · simp only [Bool.false_eq_true, if_false]; norm_num; linarith
    · simp only [Bool.false_eq_true, if_false]; norm_num; linarith
    · simp only [Bool.false_eq_true, if_false]
    · simp only [Bool.false_eq_true, if_false, e2]; ring
    · simp only [Bool.false_eq_true, if_false]; norm_num; linarith
    · simp only [Bool.false_eq_true, if_false]; norm_num; linarith
  · refine ⟨_, rfl, rfl, rfl, ?_, ?_, ?_, ?_, rfl⟩
    · simp only [if_true]
    · simp only [if_true, e2]; ring
    · simp only [if_true]; norm_num; linarith
    · simp only [if_true]; norm_num; linarith

/-- C11: on mobile the frame callback sets the scale of all three axes to exactly 0 at every
pair of clock readings: the base scale `0.0` is multiplied by the breathing factor, so the
scale is the same at any two times. -/
theorem frameCallback_mobile_scale_zero (t1 t2 : ℝ) (model : Object3D ℝ) :
    (∃ m, frameCallback Real.sin Real.pi true t1 t2 (some model) = some m ∧
      m.scale.x = 0 ∧ m.scale.y = 0 ∧ m.scale.z = 0 ∧
      m.scale.x = 0.0 * (Real.sin (t1 * 0.0008) * 0.005 + 1)) ∧
    (∀ u1 u2 : ℝ,
      (frameCallback Real.sin Real.pi true u1 u2 (some model)).map (fun m => m.scale.x)
        = (frameCallback Real.sin Real.pi true t1 t2 (some model)).map (fun m => m.scale.x) ∧
      (frameCallback Real.sin Real.pi true u1 u2 (some model)).map (fun m => m.scale.y)
        = (frameCallback Real.sin Real.pi true t1 t2 (some model)).map (fun m => m.scale.y) ∧
      (frameCallback Real.sin Real.pi true u1 u2 (some model)).map (fun m => m.scale.z)
        = (frameCallback Real.sin Real.pi true t1 t2 (some model)).map (fun m => m.scale.z)) := by
  constructor
  · refine ⟨_, rfl, ?_, ?_, ?_, ?_⟩ <;> simp only [if_true] <;> norm_num
  · intro u1 u2
    simp only [frameCallback, if_true, Option.map_some']
    norm_num

/-- C12: the `href` of every entry of `navLinks` and of both hero call-to-action links is
'#' followed by the `id` of one of the six sections that `App` renders, and the `href`s of
`navLinks` are pairwise distinct. -/
theorem nav_targets_exist :
    (∀ link ∈ navLinks, ∃ id ∈ sectionIds, link.href = "#" ++ id) ∧
    (∀ href ∈ heroCtaHrefs, ∃ id ∈ sectionIds, href = "#" ++ id) ∧
    (navLinks.map (fun link => link.href)).Nodup ∧
    sectionIds = ["home", "about", "skills", "projects", "testimonials", "contact"] := by
  refine ⟨?_, ?_, by decide, rfl⟩
  · intro link hl
    simp only [navLinks, List.mem_cons, List.mem_singleton, List.not_mem_nil, or_false] at hl
    rcases hl with rfl | rfl | rfl | rfl | rfl
    · exact ⟨"home", by decide, by decide⟩
    · exact ⟨"about", by decide, by decide⟩
    · exact ⟨"skills", by decide, by decide⟩
    · exact ⟨"projects", by decide, by decide⟩
    · exact ⟨"contact", by decide, by decide⟩
  · intro href hh
    simp only [heroCtaHrefs, List.mem_cons, List.mem_singleton, List.not_mem_nil, or_false] at hh
    rcases hh with rfl | rfl
    · exact ⟨"projects", by decide, by decide⟩
    · exact ⟨"contact", by decide, by decide⟩

/-- Witness of C12 at the fourth entry of `navLinks`, titled 'Work'. -/
theorem nav_targets_exist_witness :
    ∃ id ∈ sectionIds, (NavLink.mk "#projects" "Work").href = "#" ++ id :=
  nav_targets_exist.1 ⟨"#projects", "Work"⟩ (by decide)

/-- C13: the menu button negates `isMenuOpen` and a menu link sets it to false whatever it was;
after the sync effect has run, the body carries the class 'no-scroll' exactly when `isMenuOpen`
is true, whatever the body's classes were before; so after a link click followed by the sync
effect the class is absent. -/
theorem scroll_lock_follows_menu (s : AppState) (d : Document) :
    (step s .menuButtonClick).isMenuOpen = (!s.isMenuOpen) ∧
    (step s .menuLinkClick).isMenuOpen = false ∧
    ("no-scroll" ∈ (syncEffect s d).bodyClassList ↔ s.isMenuOpen = true) ∧
    "no-scroll" ∉ (syncEffect (step s .menuLinkClick) d).bodyClassList := by
  refine ⟨rfl, rfl, ?_, ?_⟩
  · cases h : s.isMenuOpen
    · simp only [syncEffect, h, Bool.false_eq_true, if_false, iff_false]
      exact not_mem_classListRemove _ _
    · simp only [syncEffect, h, if_true, iff_true]
      exact mem_classListAdd _ _
  · show "no-scroll" ∉ classListRemove d.bodyClassList "no-scroll"
    exact not_mem_classListRemove _ _

/-- Witness of C13: a body that carries 'no-scroll' from an open menu loses it when a menu
link is clicked and the effect runs. -/
theorem scroll_lock_follows_menu_witness :
    "no-scroll" ∉ (syncEffect (step ⟨some "dark", true, true⟩ .menuLinkClick)
      ⟨[("data-theme", "dark")], ["page", "no-scroll"]⟩).bodyClassList :=
  (scroll_lock_follows_menu ⟨some "dark", true, true⟩
    ⟨[("data-theme", "dark")], ["page", "no-scroll"]⟩).2.2.2

/-- C14: for each of the two themes the `aria-label` of the toggle button reads
'Switch to X theme' with X the theme that `toggleTheme` yields, and the desktop button and
the mobile header button have the same label and the same icon for the same theme. -/
theorem toggle_label_announces (t : String) (ht : t = "light" ∨ t = "dark") :
    (∃ x, toggleTheme (some t) = some x ∧
      desktopToggleLabel (some t) = "Switch to " ++ x ++ " theme" ∧
      mobileToggleLabel (some t) = "Switch to " ++ x ++ " theme") ∧
    desktopToggleLabel (some t) = mobileToggleLabel (some t) ∧
    desktopToggleIcon (some t) = mobileToggleIcon (some t) ∧
    desktopToggleLabel (some "light") = "Switch to dark theme" ∧
    desktopToggleLabel (some "dark") = "Switch to light theme" := by
  rcases ht with rfl | rfl
  · exact ⟨⟨"dark", by decide, by decide, by decide⟩, rfl, rfl, by decide, by decide⟩
  · exact ⟨⟨"light", by decide, by decide, by decide⟩, rfl, rfl, by decide, by decide⟩

/-- Witness of C14 at the theme 'dark'. -/
theorem toggle_label_announces_witness :
    desktopToggleLabel (some "dark") = mobileToggleLabel (some "dark") ∧
    desktopToggleIcon (some "dark") = mobileToggleIcon (some "dark") :=
  ⟨(toggle_label_announces "dark" (Or.inr rfl)).2.1,
   (toggle_label_announces "dark" (Or.inr rfl)).2.2.1⟩

end Portfolio
